import Mathlib

/-!
Shallow embedding of the TutorEdge in-memory repository store
(`MemStorage` in the server storage module, entity shapes from
`shared/schema.ts`).

Modelling conventions:
* JS `Date` timestamps are abstract instants (`Nat`); every operation that
  calls `new Date()` receives the current instant as an explicit `now`
  parameter.
* `randomUUID()` identifiers are modelled by a fresh-counter `nextId` in the
  store: each create consumes `nextId` as the new id.  The only property of
  `randomUUID` the code relies on is freshness, captured by the `WF`
  invariant (every stored key is below `nextId`).
* A JS `Map` is an association list in insertion order (`JsMap`).  Keys are
  unique in every store reachable by the operations; `del` is written with
  `filter`, which agrees with `Map.delete` on unique-key lists.
* Decimal amount strings are parsed by `parseFloatQ`, an exact-rational
  model of `parseFloat` on the nonnegative decimal numerals used for fee
  amounts; sums of parsed amounts are computed over `ℚ`.
* The current calendar month used by `getAdminDashboardStats`
  (`new Date().toISOString().slice(0, 7)` in the source) is passed to the
  stats computation as the explicit parameter `currentMonth`.
* Insert payloads are modelled as full records: at runtime the source
  spreads the payload and then overwrites the synthesized fields
  (`{ ...payload, id, createdAt: new Date() }`), so any id or timestamp
  carried by the payload is visible only as a value the create overrides.
  Update patches are modelled as per-entity structures of optional fields,
  matching `Partial<InsertXxx>` (which omits the id and the creation
  timestamp).
-/

namespace TutorEdge

abbrev Date := Nat

/-- Association-list model of a JS `Map` keyed by generated ids, in
insertion order. -/
abbrev JsMap (α : Type) := List (Nat × α)

namespace JsMap

/-- Model of `Map.get`: first entry with the key (keys are unique in
reachable stores). -/
def get? : JsMap α → Nat → Option α
  | [], _ => none
  | e :: es, k => if e.1 = k then some e.2 else get? es k

/-- Model of `Map.set`: replace the entry with the key in place if present,
otherwise append at the end (insertion order). -/
def set : JsMap α → Nat → α → JsMap α
  | [], k, v => [(k, v)]
  | e :: es, k, v => if e.1 = k then (k, v) :: es else e :: set es k v

/-- Model of `Map.delete`: returns whether a matching entry existed, and the
map with matching entries removed. -/
def del (m : JsMap α) (k : Nat) : Bool × JsMap α :=
  (m.any (fun e => e.1 == k), m.filter (fun e => !(e.1 == k)))

/-- Model of `Array.from(map.values())`: the values in insertion order. -/
def values (m : JsMap α) : List α := m.map (·.2)

/-- Keys of the map are all below the bound `n`. -/
def keysBelow (m : JsMap α) (n : Nat) : Prop := ∀ e ∈ m, e.1 < n

instance (m : JsMap α) (n : Nat) : Decidable (keysBelow m n) :=
  inferInstanceAs (Decidable (∀ e ∈ m, e.1 < n))

theorem keysBelow_nil (n : Nat) : keysBelow ([] : JsMap α) n := by
  intro e he; cases he

theorem keysBelow_mono {m : JsMap α} {n n' : Nat} (h : keysBelow m n)
    (hle : n ≤ n') : keysBelow m n' := by
  intro e he; exact lt_of_lt_of_le (h e he) hle

theorem keysBelow_append {m l : JsMap α} {n : Nat} (hm : keysBelow m n)
    (hl : keysBelow l n) : keysBelow (m ++ l) n := by
  intro e he
  rcases List.mem_append.mp he with h | h
  · exact hm e h
  · exact hl e h

theorem get?_eq_none_of_keysBelow {m : JsMap α} {n : Nat}
    (h : keysBelow m n) : get? m n = none := by
  induction m with
  | nil => rfl
  | cons e es ih =>
    have hne : e.1 ≠ n := Nat.ne_of_lt (h e (List.mem_cons_self e es))
    simp only [get?, if_neg hne]
    exact ih (fun x hx => h x (List.mem_cons_of_mem e hx))

theorem set_eq_append_of_get?_none {m : JsMap α} {k : Nat} (v : α)
    (h : get? m k = none) : set m k v = m ++ [(k, v)] := by
  induction m with
  | nil => rfl
  | cons e es ih =>
    by_cases hk : e.1 = k
    · simp [get?, if_pos hk] at h
    · simp only [get?, if_neg hk] at h
      simp [set, if_neg hk, ih h]

theorem get?_append_of_none {m l : JsMap α} {k : Nat}
    (h : get? m k = none) : get? (m ++ l) k = get? l k := by
  induction m with
  | nil => rfl
  | cons e es ih =>
    by_cases hk : e.1 = k
    · simp [get?, if_pos hk] at h
    · simp only [get?, if_neg hk] at h
      simpa [get?, if_neg hk] using ih h

theorem get?_set_self (m : JsMap α) (k : Nat) (v : α) :
    get? (set m k v) k = some v := by
  induction m with
  | nil => simp [set, get?]
  | cons e es ih =>
    by_cases hk : e.1 = k
    · simp [set, if_pos hk, get?]
    · simp [set, if_neg hk, get?, if_neg hk, ih]

theorem set_append_of_keysBelow {m : JsMap α} {n : Nat} (f g : α)
    (h : keysBelow m n) : set (m ++ [(n, f)]) n g = m ++ [(n, g)] := by
  induction m with
  | nil => simp [set]
  | cons e es ih =>
    have hne : e.1 ≠ n := Nat.ne_of_lt (h e (List.mem_cons_self e es))
    simp only [List.cons_append, set, if_neg hne, List.append_eq]
    rw [ih (fun x hx => h x (List.mem_cons_of_mem e hx))]

theorem get?_del_self (m : JsMap α) (k : Nat) :
    get? (del m k).2 k = none := by
  induction m with
  | nil => rfl
  | cons e es ih =>
    by_cases hk : e.1 = k
    · have hbeq : (e.1 == k) = true := beq_iff_eq.mpr hk
      simpa [del, List.filter_cons, hbeq] using ih
    · have hbeq : (e.1 == k) = false := beq_eq_false_iff_ne.mpr hk
      simpa [del, List.filter_cons, hbeq, get?, if_neg hk] using ih

theorem del_eq_of_get?_none {m : JsMap α} {k : Nat}
    (h : get? m k = none) : del m k = (false, m) := by
  induction m with
  | nil => rfl
  | cons e es ih =>
    by_cases hk : e.1 = k
    · simp [get?, if_pos hk] at h
    · simp only [get?, if_neg hk] at h
      have := ih h
      simp only [del] at this ⊢
      simp only [List.any_cons, List.filter_cons]
      have hbeq : (e.1 == k) = false := by
        exact beq_eq_false_iff_ne.mpr hk
      simp [hbeq, Prod.ext_iff] at this ⊢
      exact this

theorem del_fst_of_get?_some {m : JsMap α} {k : Nat} {v : α}
    (h : get? m k = some v) : (del m k).1 = true := by
  induction m with
  | nil => simp [get?] at h
  | cons e es ih =>
    by_cases hk : e.1 = k
    · simp [del, List.any_cons, hk]
    · simp only [get?, if_neg hk] at h
      have := ih h
      simp only [del] at this ⊢
      simp only [List.any_cons]
      simp [this]

theorem keysBelow_del {m : JsMap α} {n : Nat} (k : Nat)
    (h : keysBelow m n) : keysBelow (del m k).2 n := by
  intro e he
  exact h e (List.mem_of_mem_filter he)

theorem values_append (m l : JsMap α) :
    values (m ++ l) = values m ++ values l := by
  simp [values]

end JsMap

/-- Entity `User` from `shared/schema.ts` (`users` table). -/
structure User where
  id : Nat
  email : String
  password : String
  name : String
  role : String
  avatar : Option String
  isActive : Bool
  lastLogin : Option Date
  createdAt : Date
deriving DecidableEq

/-- Entity `Student` from `shared/schema.ts` (`students` table). -/
structure Student where
  id : Nat
  name : String
  email : String
  rollNumber : String
  grade : String
  subjects : List String
  parentId : Option Nat
  tutorId : Option Nat
  avatar : Option String
  createdAt : Date
deriving DecidableEq

/-- Entity `Class` from `shared/schema.ts` (`classes` table); a schedule
entry is a `{day, time}` pair. -/
structure Class where
  id : Nat
  name : String
  subject : String
  grade : String
  tutorId : Nat
  schedule : List (String × String)
  studentIds : List Nat
  feeAmount : String
  createdAt : Date
deriving DecidableEq

/-- Entity `Attendance` from `shared/schema.ts` (`attendance` table). -/
structure Attendance where
  id : Nat
  classId : Nat
  studentId : Nat
  date : Date
  status : String
  notes : Option String
  createdAt : Date
deriving DecidableEq

/-- Entity `Fee` from `shared/schema.ts` (`fees` table); `amount` is a
decimal string such as `"250.00"`. -/
structure Fee where
  id : Nat
  studentId : Nat
  classId : Nat
  amount : String
  dueDate : Date
  paidDate : Option Date
  status : String
  month : String
  createdAt : Date
deriving DecidableEq

/-- Entity `Homework` from `shared/schema.ts` (`homework` table); note the
table has no `createdAt` column, its creation timestamp is `assignedDate`. -/
structure Homework where
  id : Nat
  title : String
  description : String
  classId : Nat
  tutorId : Nat
  dueDate : Date
  assignedDate : Date
  status : String
  totalStudents : Int
  submittedCount : Int
deriving DecidableEq

/-- Entity `HomeworkSubmission` from `shared/schema.ts`
(`homework_submissions` table); its creation timestamp is `submittedAt`. -/
structure HomeworkSubmission where
  id : Nat
  homeworkId : Nat
  studentId : Nat
  submissionText : Option String
  fileUrl : Option String
  submittedAt : Date
  grade : Option Int
  feedback : Option String
  status : String
deriving DecidableEq

/-- Entity `Announcement` from `shared/schema.ts` (`announcements` table). -/
structure Announcement where
  id : Nat
  title : String
  message : String
  tutorId : Nat
  targetAudience : String
  classIds : List Nat
  isImportant : Bool
  createdAt : Date
deriving DecidableEq

/-- Entity `SystemLog` from `shared/schema.ts` (`system_logs` table); the
JSON `details` blob is modelled as a string-keyed association list. -/
structure SystemLog where
  id : Nat
  adminId : Nat
  action : String
  targetType : String
  targetId : Nat
  details : List (String × String)
  ipAddress : Option String
  createdAt : Date
deriving DecidableEq

/-- Entity `SystemSetting` from `shared/schema.ts` (`system_settings`
table); its creation/refresh timestamp is `updatedAt`. -/
structure SystemSetting where
  id : Nat
  key : String
  value : String
  description : Option String
  category : String
  updatedBy : Option Nat
  updatedAt : Date
deriving DecidableEq

/-- Update patch for a Student, modelling `Partial<InsertStudent>`: each
legal field is optionally present (the insert schema omits `id` and
`createdAt`, so a patch can never carry them). -/
structure StudentPatch where
  name : Option String := none
  email : Option String := none
  rollNumber : Option String := none
  grade : Option String := none
  subjects : Option (List String) := none
  parentId : Option (Option Nat) := none
  tutorId : Option (Option Nat) := none
  avatar : Option (Option String) := none
deriving DecidableEq

/-- Update patch for a Fee, modelling `Partial<InsertFee>`. -/
structure FeePatch where
  studentId : Option Nat := none
  classId : Option Nat := none
  amount : Option String := none
  dueDate : Option Date := none
  paidDate : Option (Option Date) := none
  status : Option String := none
  month : Option String := none
deriving DecidableEq

/-- Update patch for a SystemSetting, modelling
`Partial<InsertSystemSetting>` (the insert schema omits `id` and
`updatedAt`). -/
structure SystemSettingPatch where
  key : Option String := none
  value : Option String := none
  description : Option (Option String) := none
  category : Option String := none
  updatedBy : Option (Option Nat) := none
deriving DecidableEq

/-- State of the in-memory store: the ten collections of `MemStorage`, plus
the fresh-id counter modelling `randomUUID`. -/
structure MemStorage where
  users : JsMap User := []
  students : JsMap Student := []
  classes : JsMap Class := []
  attendance : JsMap Attendance := []
  fees : JsMap Fee := []
  homework : JsMap Homework := []
  homeworkSubmissions : JsMap HomeworkSubmission := []
  announcements : JsMap Announcement := []
  systemLogs : JsMap SystemLog := []
  systemSettings : JsMap SystemSetting := []
  nextId : Nat := 0
deriving DecidableEq

/-- Well-formedness invariant of a reachable store: every key of every
collection was generated by a past value of the fresh-id counter, hence is
below `nextId`. -/
def MemStorage.WF (st : MemStorage) : Prop :=
  JsMap.keysBelow st.users st.nextId ∧
  JsMap.keysBelow st.students st.nextId ∧
  JsMap.keysBelow st.classes st.nextId ∧
  JsMap.keysBelow st.attendance st.nextId ∧
  JsMap.keysBelow st.fees st.nextId ∧
  JsMap.keysBelow st.homework st.nextId ∧
  JsMap.keysBelow st.homeworkSubmissions st.nextId ∧
  JsMap.keysBelow st.announcements st.nextId ∧
  JsMap.keysBelow st.systemLogs st.nextId ∧
  JsMap.keysBelow st.systemSettings st.nextId

instance (st : MemStorage) : Decidable st.WF := by
  unfold MemStorage.WF; infer_instance

/-- Shallow merge `{ ...existing, ...patch }` for a Student: each field
present in the patch replaces the existing value, absent fields are
preserved; `id` and `createdAt` cannot occur in a patch. -/
def mergeStudent (s : Student) (p : StudentPatch) : Student :=
  { s with
    name := p.name.getD s.name
    email := p.email.getD s.email
    rollNumber := p.rollNumber.getD s.rollNumber
    grade := p.grade.getD s.grade
    subjects := p.subjects.getD s.subjects
    parentId := p.parentId.getD s.parentId
    tutorId := p.tutorId.getD s.tutorId
    avatar := p.avatar.getD s.avatar }

/-- Shallow merge `{ ...existing, ...patch }` for a Fee. -/
def mergeFee (f : Fee) (p : FeePatch) : Fee :=
  { f with
    studentId := p.studentId.getD f.studentId
    classId := p.classId.getD f.classId
    amount := p.amount.getD f.amount
    dueDate := p.dueDate.getD f.dueDate
    paidDate := p.paidDate.getD f.paidDate
    status := p.status.getD f.status
    month := p.month.getD f.month }

/-- Shallow merge `{ ...existing, ...patch }` for a SystemSetting over the
legal patch fields; the `updatedAt` refresh is applied by
`MemStorage.updateSystemSetting` itself. -/
def mergeSystemSetting (s : SystemSetting) (p : SystemSettingPatch) : SystemSetting :=
  { s with
    key := p.key.getD s.key
    value := p.value.getD s.value
    description := p.description.getD s.description
    category := p.category.getD s.category
    updatedBy := p.updatedBy.getD s.updatedBy }

/-- Source: `MemStorage.getUser`. -/
def MemStorage.getUser (st : MemStorage) (id : Nat) : Option User :=
  st.users.get? id

/-- Source: the first `createUser` method declaration of `MemStorage`
(`{ ...user, id, createdAt: new Date() }`).  In JS a later duplicate class
method wins, so this declaration is shadowed by
`MemStorage.createUser` below and is never the effective method. -/
def MemStorage.createUserShadowed (st : MemStorage) (now : Date) (user : User) :
    User × MemStorage :=
  let id := st.nextId
  let newUser : User := { user with id := id, createdAt := now }
  (newUser, { st with users := st.users.set id newUser, nextId := id + 1 })

/-- Source: the effective `createUser` (the later of the two duplicate
method definitions): `{ ...user, id, isActive: true, lastLogin: null,
createdAt: new Date() }`. -/
def MemStorage.createUser (st : MemStorage) (now : Date) (user : User) :
    User × MemStorage :=
  let id := st.nextId
  let newUser : User :=
    { user with id := id, isActive := true, lastLogin := none, createdAt := now }
  (newUser, { st with users := st.users.set id newUser, nextId := id + 1 })

/-- Source: `MemStorage.deleteUser`. -/
def MemStorage.deleteUser (st : MemStorage) (id : Nat) : Bool × MemStorage :=
  let r := st.users.del id
  (r.1, { st with users := r.2 })

/-- Source: `MemStorage.getStudent`. -/
def MemStorage.getStudent (st : MemStorage) (id : Nat) : Option Student :=
  st.students.get? id

/-- Source: `MemStorage.createStudent`
(`{ ...student, id, createdAt: new Date() }`). -/
def MemStorage.createStudent (st : MemStorage) (now : Date) (student : Student) :
    Student × MemStorage :=
  let id := st.nextId
  let newStudent : Student := { student with id := id, createdAt := now }
  (newStudent, { st with students := st.students.set id newStudent, nextId := id + 1 })

/-- Source: `MemStorage.updateStudent` (`{ ...existing, ...student }` when
the id is present, `undefined` otherwise). -/
def MemStorage.updateStudent (st : MemStorage) (id : Nat) (patch : StudentPatch) :
    Option Student × MemStorage :=
  match st.students.get? id with
  | none => (none, st)
  | some existing =>
    let updated := mergeStudent existing patch
    (some updated, { st with students := st.students.set id updated })

/-- Source: `MemStorage.deleteStudent` (`this.students.delete(id)`). -/
def MemStorage.deleteStudent (st : MemStorage) (id : Nat) : Bool × MemStorage :=
  let r := st.students.del id
  (r.1, { st with students := r.2 })

/-- Source: `MemStorage.getAttendance`. -/
def MemStorage.getAttendance (st : MemStorage) (id : Nat) : Option Attendance :=
  st.attendance.get? id

/-- Source: `MemStorage.createAttendance`
(`{ ...attendance, id, createdAt: new Date() }`). -/
def MemStorage.createAttendance (st : MemStorage) (now : Date) (att : Attendance) :
    Attendance × MemStorage :=
  let id := st.nextId
  let newAttendance : Attendance := { att with id := id, createdAt := now }
  (newAttendance, { st with attendance := st.attendance.set id newAttendance, nextId := id + 1 })

/-- Source: `MemStorage.bulkCreateAttendance`: awaits `createAttendance` on
each element in input order and collects the results in order. -/
def MemStorage.bulkCreateAttendance : MemStorage → Date → List Attendance →
    List Attendance × MemStorage
  | st, _, [] => ([], st)
  | st, now, att :: rest =>
    let c := st.createAttendance now att
    let r := bulkCreateAttendance c.2 now rest
    (c.1 :: r.1, r.2)

/-- Source: `MemStorage.getFee`. -/
def MemStorage.getFee (st : MemStorage) (id : Nat) : Option Fee :=
  st.fees.get? id

/-- Source: `MemStorage.getFeesByStudent` (linear filter on `studentId`). -/
def MemStorage.getFeesByStudent (st : MemStorage) (studentId : Nat) : List Fee :=
  st.fees.values.filter (fun fee => fee.studentId == studentId)

/-- Source: `MemStorage.getFeesByMonth` (linear filter on `month`). -/
def MemStorage.getFeesByMonth (st : MemStorage) (month : String) : List Fee :=
  st.fees.values.filter (fun fee => fee.month == month)

/-- Source: `MemStorage.getAllFees`. -/
def MemStorage.getAllFees (st : MemStorage) : List Fee :=
  st.fees.values

/-- Source: `MemStorage.createFee` (`{ ...fee, id, createdAt: new Date() }`). -/
def MemStorage.createFee (st : MemStorage) (now : Date) (fee : Fee) :
    Fee × MemStorage :=
  let id := st.nextId
  let newFee : Fee := { fee with id := id, createdAt := now }
  (newFee, { st with fees := st.fees.set id newFee, nextId := id + 1 })

/-- Source: `MemStorage.updateFee` (`{ ...existing, ...fee }` when the id is
present, `undefined` otherwise). -/
def MemStorage.updateFee (st : MemStorage) (id : Nat) (patch : FeePatch) :
    Option Fee × MemStorage :=
  match st.fees.get? id with
  | none => (none, st)
  | some existing =>
    let updated := mergeFee existing patch
    (some updated, { st with fees := st.fees.set id updated })

/-- Source: `MemStorage.deleteFee`. -/
def MemStorage.deleteFee (st : MemStorage) (id : Nat) : Bool × MemStorage :=
  let r := st.fees.del id
  (r.1, { st with fees := r.2 })

/-- Source: `MemStorage.getHomework`. -/
def MemStorage.getHomework (st : MemStorage) (id : Nat) : Option Homework :=
  st.homework.get? id

/-- Source: `MemStorage.createHomework`
(`{ ...homework, id, assignedDate: new Date() }`). -/
def MemStorage.createHomework (st : MemStorage) (now : Date) (hw : Homework) :
    Homework × MemStorage :=
  let id := st.nextId
  let newHomework : Homework := { hw with id := id, assignedDate := now }
  (newHomework, { st with homework := st.homework.set id newHomework, nextId := id + 1 })

/-- Source: `MemStorage.deleteHomework`. -/
def MemStorage.deleteHomework (st : MemStorage) (id : Nat) : Bool × MemStorage :=
  let r := st.homework.del id
  (r.1, { st with homework := r.2 })

/-- Source: `MemStorage.getHomeworkSubmission`. -/
def MemStorage.getHomeworkSubmission (st : MemStorage) (id : Nat) :
    Option HomeworkSubmission :=
  st.homeworkSubmissions.get? id

/-- Source: `MemStorage.createHomeworkSubmission`
(`{ ...submission, id, submittedAt: new Date() }`). -/
def MemStorage.createHomeworkSubmission (st : MemStorage) (now : Date)
    (sub : HomeworkSubmission) : HomeworkSubmission × MemStorage :=
  let id := st.nextId
  let newSubmission : HomeworkSubmission := { sub with id := id, submittedAt := now }
  (newSubmission,
   { st with homeworkSubmissions := st.homeworkSubmissions.set id newSubmission,
             nextId := id + 1 })

/-- Source: `MemStorage.getSystemSetting`. -/
def MemStorage.getSystemSetting (st : MemStorage) (id : Nat) : Option SystemSetting :=
  st.systemSettings.get? id

/-- Source: `MemStorage.createSystemSetting`
(`{ ...setting, id, updatedAt: new Date() }`). -/
def MemStorage.createSystemSetting (st : MemStorage) (now : Date)
    (setting : SystemSetting) : SystemSetting × MemStorage :=
  let id := st.nextId
  let newSetting : SystemSetting := { setting with id := id, updatedAt := now }
  (newSetting,
   { st with systemSettings := st.systemSettings.set id newSetting, nextId := id + 1 })

/-- Source: `MemStorage.updateSystemSetting`
(`{ ...existing, ...setting, updatedAt: new Date() }` when the id is
present, `undefined` otherwise). -/
def MemStorage.updateSystemSetting (st : MemStorage) (now : Date) (id : Nat)
    (patch : SystemSettingPatch) : Option SystemSetting × MemStorage :=
  match st.systemSettings.get? id with
  | none => (none, st)
  | some existing =>
    let updated := { mergeSystemSetting existing patch with updatedAt := now }
    (some updated, { st with systemSettings := st.systemSettings.set id updated })

/-- Source: `MemStorage.deleteSystemSetting`. -/
def MemStorage.deleteSystemSetting (st : MemStorage) (id : Nat) : Bool × MemStorage :=
  let r := st.systemSettings.del id
  (r.1, { st with systemSettings := r.2 })

/-- Value of a digit run, most significant first (`acc` is the value of the
digits already consumed). -/
def digitsToNat : List Char → Nat → Nat
  | [], acc => acc
  | c :: cs, acc => digitsToNat cs (acc * 10 + (c.toNat - Char.toNat (Char.ofNat 48)))

/-- Split a character list at the first decimal point, returning the
integer-part digits and, when a point is present, the fraction digits. -/
def splitAtDot : List Char → List Char × Option (List Char)
  | [] => ([], none)
  | c :: cs =>
    if c = Char.ofNat 46 then ([], some cs)
    else
      let r := splitAtDot cs
      (c :: r.1, r.2)

/-- Exact-rational model of JS `parseFloat` restricted to the nonnegative
decimal numerals (digits, optionally a point and fraction digits) used as
fee amounts. -/
def parseFloatQ (s : String) : ℚ :=
  let r := splitAtDot s.data
  match r.2 with
  | none => (digitsToNat r.1 0 : ℚ)
  | some frac => (digitsToNat r.1 0 : ℚ) + (digitsToNat frac 0 : ℚ) / (10 ^ frac.length)

/-- Model of `parseFloat(x.toFixed(1))` on a nonnegative rational: round to
one decimal place (nearest, half up). -/
def toFixed1 (q : ℚ) : ℚ := ((Int.floor (q * 10 + 1 / 2) : ℚ)) / 10

/-- Result record of `MemStorage.getAdminDashboardStats`. -/
structure AdminDashboardStats where
  totalUsers : Nat
  activeUsers : Nat
  totalStudents : Nat
  totalTutors : Nat
  totalParents : Nat
  totalClasses : Nat
  totalRevenue : ℚ
  monthlyRevenue : ℚ
  avgAttendance : ℚ
deriving DecidableEq

/-- Source: `MemStorage.getAdminDashboardStats`.  `currentMonth` is the
value of `new Date().toISOString().slice(0, 7)` at call time, passed
explicitly. -/
def MemStorage.getAdminDashboardStats (st : MemStorage) (currentMonth : String) :
    AdminDashboardStats :=
  let users := st.users.values
  let students := st.students.values
  let classes := st.classes.values
  let fees := st.fees.values
  let totalUsers := users.length
  let activeUsers := (users.filter (fun user => user.isActive)).length
  let totalStudents := students.length
  let totalTutors := (users.filter (fun user => user.role == "tutor")).length
  let totalParents := (users.filter (fun user => user.role == "parent")).length
  let totalClasses := classes.length
  let totalRevenue :=
    (fees.filter (fun fee => fee.status == "paid")).foldl
      (fun sum fee => sum + parseFloatQ fee.amount) 0
  let monthlyRevenue :=
    (fees.filter (fun fee => fee.status == "paid" && fee.month == currentMonth)).foldl
      (fun sum fee => sum + parseFloatQ fee.amount) 0
  let attendance := st.attendance.values
  let totalAttendanceRecords := attendance.length
  let presentRecords :=
    (attendance.filter (fun att => att.status == "present" || att.status == "late")).length
  let avgAttendance : ℚ :=
    if totalAttendanceRecords > 0 then
      ((presentRecords : ℚ) / (totalAttendanceRecords : ℚ)) * 100
    else 0
  { totalUsers := totalUsers
    activeUsers := activeUsers
    totalStudents := totalStudents
    totalTutors := totalTutors
    totalParents := totalParents
    totalClasses := totalClasses
    totalRevenue := totalRevenue
    monthlyRevenue := monthlyRevenue
    avgAttendance := toFixed1 avgAttendance }

/-- Claim C8: for every entity kind and input payload, `get` on the
identifier of the record returned by `create` yields a record deep-equal to
the created record, including the synthesized id and timestamp fields
(shown for the Fee, Student, Attendance, Homework, HomeworkSubmission,
SystemSetting and User kinds). -/
theorem C8_get_after_create :
    (∀ (st : MemStorage) (now : Date) (fee : Fee),
      (st.createFee now fee).2.getFee (st.createFee now fee).1.id
        = some (st.createFee now fee).1) ∧
    (∀ (st : MemStorage) (now : Date) (s : Student),
      (st.createStudent now s).2.getStudent (st.createStudent now s).1.id
        = some (st.createStudent now s).1) ∧
    (∀ (st : MemStorage) (now : Date) (att : Attendance),
      (st.createAttendance now att).2.getAttendance (st.createAttendance now att).1.id
        = some (st.createAttendance now att).1) ∧
    (∀ (st : MemStorage) (now : Date) (hw : Homework),
      (st.createHomework now hw).2.getHomework (st.createHomework now hw).1.id
        = some (st.createHomework now hw).1) ∧
    (∀ (st : MemStorage) (now : Date) (sub : HomeworkSubmission),
      (st.createHomeworkSubmission now sub).2.getHomeworkSubmission
          (st.createHomeworkSubmission now sub).1.id
        = some (st.createHomeworkSubmission now sub).1) ∧
    (∀ (st : MemStorage) (now : Date) (setting : SystemSetting),
      (st.createSystemSetting now setting).2.getSystemSetting
          (st.createSystemSetting now setting).1.id
        = some (st.createSystemSetting now setting).1) ∧
    (∀ (st : MemStorage) (now : Date) (user : User),
      (st.createUser now user).2.getUser (st.createUser now user).1.id
        = some (st.createUser now user).1) := by
  refine ⟨?_, ?_, ?_, ?_, ?_, ?_, ?_⟩ <;>
    intro st now x <;>
    simp [MemStorage.createFee, MemStorage.getFee,
          MemStorage.createStudent, MemStorage.getStudent,
          MemStorage.createAttendance, MemStorage.getAttendance,
          MemStorage.createHomework, MemStorage.getHomework,
          MemStorage.createHomeworkSubmission, MemStorage.getHomeworkSubmission,
          MemStorage.createSystemSetting, MemStorage.getSystemSetting,
          MemStorage.createUser, MemStorage.getUser,
          JsMap.get?_set_self]

/-- Claim C10: the effective `createUser` (the later of the two duplicate
method definitions in `MemStorage`) stores and returns a user whose
`isActive` is `true` and whose `lastLogin` is `null`, overriding whatever
values the caller's payload carried for those fields. -/
theorem C10_createUser_forces_flags :
    ∀ (st : MemStorage) (now : Date) (user : User),
      (st.createUser now user).1.isActive = true ∧
      (st.createUser now user).1.lastLogin = none ∧
      (st.createUser now user).2.users
        = st.users.set st.nextId (st.createUser now user).1 ∧
      (st.createUser now user).2.getUser st.nextId = some (st.createUser now user).1 := by
  intro st now user
  refine ⟨rfl, rfl, rfl, ?_⟩
  simp [MemStorage.createUser, MemStorage.getUser, JsMap.get?_set_self]

/-- Claim C5: `deleteStudent` touches only the student collection: the fee
collection is unchanged, and `getFeesByStudent` still returns exactly the
fees referencing the deleted student id (no cascade, orphan cleanup, or
detection). -/
theorem C5_deleteStudent_leaves_fees :
    ∀ (st : MemStorage) (id studentId : Nat),
      (st.deleteStudent id).2.fees = st.fees ∧
      (st.deleteStudent id).2.getFeesByStudent studentId
        = st.getFeesByStudent studentId := by
  intro st id studentId
  exact ⟨rfl, rfl⟩

/-- Payload used to refute claim C4 at the User kind: it asks for an
inactive user with a recorded last login. -/
def c4User : User :=
  { id := 99, email := "p@example.com", password := "pw", name := "P",
    role := "parent", avatar := none, isActive := false, lastLogin := some 7,
    createdAt := 3 }

/-- Claim C4, counterexample: the claim promises that `create` stores all
payload fields other than the id and the creation timestamp as given, for
every entity kind; but the effective `createUser` stores `isActive := true`
for a payload whose `isActive` is `false`. -/
theorem C4_counterexample_user_isActive :
    (MemStorage.createUser {} 5 c4User).1.isActive ≠ c4User.isActive := by decide

/-- Claim C4 as amended: for every embedded entity kind, `create`
synthesizes the identifier and the creation timestamp (`createdAt`, or
`assignedDate` for Homework, `submittedAt` for HomeworkSubmission,
`updatedAt` for SystemSetting) server-side, ignoring any such value in the
payload, and stores all other payload fields as given — except that the
effective `createUser` additionally overrides `isActive` to `true` and
`lastLogin` to `null`. -/
theorem C4_create_synthesizes_id_timestamp :
    (∀ (st : MemStorage) (now : Date) (s : Student),
      (st.createStudent now s).1 = { s with id := st.nextId, createdAt := now } ∧
      (st.createStudent now s).2.students
        = st.students.set st.nextId { s with id := st.nextId, createdAt := now }) ∧
    (∀ (st : MemStorage) (now : Date) (hw : Homework),
      (st.createHomework now hw).1 = { hw with id := st.nextId, assignedDate := now } ∧
      (st.createHomework now hw).2.homework
        = st.homework.set st.nextId { hw with id := st.nextId, assignedDate := now }) ∧
    (∀ (st : MemStorage) (now : Date) (fee : Fee),
      (st.createFee now fee).1 = { fee with id := st.nextId, createdAt := now } ∧
      (st.createFee now fee).2.fees
        = st.fees.set st.nextId { fee with id := st.nextId, createdAt := now }) ∧
    (∀ (st : MemStorage) (now : Date) (att : Attendance),
      (st.createAttendance now att).1 = { att with id := st.nextId, createdAt := now } ∧
      (st.createAttendance now att).2.attendance
        = st.attendance.set st.nextId { att with id := st.nextId, createdAt := now }) ∧
    (∀ (st : MemStorage) (now : Date) (sub : HomeworkSubmission),
      (st.createHomeworkSubmission now sub).1
        = { sub with id := st.nextId, submittedAt := now } ∧
      (st.createHomeworkSubmission now sub).2.homeworkSubmissions
        = st.homeworkSubmissions.set st.nextId
            { sub with id := st.nextId, submittedAt := now }) ∧
    (∀ (st : MemStorage) (now : Date) (setting : SystemSetting),
      (st.createSystemSetting now setting).1
        = { setting with id := st.nextId, updatedAt := now } ∧
      (st.createSystemSetting now setting).2.systemSettings
        = st.systemSettings.set st.nextId
            { setting with id := st.nextId, updatedAt := now }) ∧
    (∀ (st : MemStorage) (now : Date) (user : User),
      (st.createUser now user).1
        = { user with id := st.nextId, isActive := true, lastLogin := none,
                      createdAt := now } ∧
      (st.createUser now user).2.users
        = st.users.set st.nextId
            { user with id := st.nextId, isActive := true, lastLogin := none,
                        createdAt := now }) := by
  refine ⟨?_, ?_, ?_, ?_, ?_, ?_, ?_⟩ <;> intro st now x <;> exact ⟨rfl, rfl⟩

/-- Claim C9: for every embedded entity kind with a delete operation
(Student, Fee, User, Homework, SystemSetting): `delete(id)` followed by
`get(id)` returns absent; `delete` on a non-existent id returns `false` and
leaves the store unchanged; `delete` on an existing id returns `true` — the
boolean result states whether a record was removed. -/
theorem C9_delete_semantics :
    (∀ (st : MemStorage) (id : Nat),
      (st.deleteStudent id).2.getStudent id = none ∧
      (st.getStudent id = none → st.deleteStudent id = (false, st)) ∧
      (∀ x, st.getStudent id = some x → (st.deleteStudent id).1 = true)) ∧
    (∀ (st : MemStorage) (id : Nat),
      (st.deleteFee id).2.getFee id = none ∧
      (st.getFee id = none → st.deleteFee id = (false, st)) ∧
      (∀ x, st.getFee id = some x → (st.deleteFee id).1 = true)) ∧
    (∀ (st : MemStorage) (id : Nat),
      (st.deleteUser id).2.getUser id = none ∧
      (st.getUser id = none → st.deleteUser id = (false, st)) ∧
      (∀ x, st.getUser id = some x → (st.deleteUser id).1 = true)) ∧
    (∀ (st : MemStorage) (id : Nat),
      (st.deleteHomework id).2.getHomework id = none ∧
      (st.getHomework id = none → st.deleteHomework id = (false, st)) ∧
      (∀ x, st.getHomework id = some x → (st.deleteHomework id).1 = true)) ∧
    (∀ (st : MemStorage) (id : Nat),
      (st.deleteSystemSetting id).2.getSystemSetting id = none ∧
      (st.getSystemSetting id = none → st.deleteSystemSetting id = (false, st)) ∧
      (∀ x, st.getSystemSetting id = some x →
        (st.deleteSystemSetting id).1 = true)) := by
  refine ⟨?_, ?_, ?_, ?_, ?_⟩ <;> intro st id <;> refine ⟨?_, ?_, ?_⟩
  case refine_1.refine_1 =>
    simp [MemStorage.deleteStudent, MemStorage.getStudent, JsMap.get?_del_self]
  case refine_1.refine_2 =>
    intro h
    simp only [MemStorage.getStudent] at h
    simp [MemStorage.deleteStudent, JsMap.del_eq_of_get?_none h]
  case refine_1.refine_3 =>
    intro x h
    simp only [MemStorage.getStudent] at h
    simp [MemStorage.deleteStudent, JsMap.del_fst_of_get?_some h]
  case refine_2.refine_1 =>
    simp [MemStorage.deleteFee, MemStorage.getFee, JsMap.get?_del_self]
  case refine_2.refine_2 =>
    intro h
    simp only [MemStorage.getFee] at h
    simp [MemStorage.deleteFee, JsMap.del_eq_of_get?_none h]
  case refine_2.refine_3 =>
    intro x h
    simp only [MemStorage.getFee] at h
    simp [MemStorage.deleteFee, JsMap.del_fst_of_get?_some h]
  case refine_3.refine_1 =>
    simp [MemStorage.deleteUser, MemStorage.getUser, JsMap.get?_del_self]
  case refine_3.refine_2 =>
    intro h
    simp only [MemStorage.getUser] at h
    simp [MemStorage.deleteUser, JsMap.del_eq_of_get?_none h]
  case refine_3.refine_3 =>
    intro x h
    simp only [MemStorage.getUser] at h
    simp [MemStorage.deleteUser, JsMap.del_fst_of_get?_some h]
  case refine_4.refine_1 =>
    simp [MemStorage.deleteHomework, MemStorage.getHomework, JsMap.get?_del_self]
  case refine_4.refine_2 =>
    intro h
    simp only [MemStorage.getHomework] at h
    simp [MemStorage.deleteHomework, JsMap.del_eq_of_get?_none h]
  case refine_4.refine_3 =>
    intro x h
    simp only [MemStorage.getHomework] at h
    simp [MemStorage.deleteHomework, JsMap.del_fst_of_get?_some h]
  case refine_5.refine_1 =>
    simp [MemStorage.deleteSystemSetting, MemStorage.getSystemSetting,
          JsMap.get?_del_self]
  case refine_5.refine_2 =>
    intro h
    simp only [MemStorage.getSystemSetting] at h
    simp [MemStorage.deleteSystemSetting, JsMap.del_eq_of_get?_none h]
  case refine_5.refine_3 =>
    intro x h
    simp only [MemStorage.getSystemSetting] at h
    simp [MemStorage.deleteSystemSetting, JsMap.del_fst_of_get?_some h]

/-- Concrete student stored in the witness store for claim C9. -/
def c9Student : Student :=
  { id := 0, name := "A", email := "a@example.com", rollNumber := "101",
    grade := "G10", subjects := [], parentId := none, tutorId := none,
    avatar := none, createdAt := 0 }

/-- Witness store for claim C9: one student under id 0. -/
def c9Store : MemStorage := { students := [(0, c9Student)], nextId := 1 }

/-- Witness for claim C9 at a concrete store: deleting an absent id returns
`false` and changes nothing, deleting a present id returns `true`. -/
theorem C9_delete_witness :
    c9Store.getStudent 5 = none ∧ c9Store.deleteStudent 5 = (false, c9Store) ∧
    c9Store.getStudent 0 = some c9Student ∧ (c9Store.deleteStudent 0).1 = true :=
  ⟨by decide, (C9_delete_semantics.1 c9Store 5).2.1 (by decide),
   by decide, (C9_delete_semantics.1 c9Store 0).2.2 c9Student (by decide)⟩

/-- System setting stored in the store used to refute claim C7. -/
def c7Setting : SystemSetting :=
  { id := 0, key := "maxStudents", value := "30", description := none,
    category := "limits", updatedBy := none, updatedAt := 0 }

/-- Store holding one system setting, used to refute claim C7 and as the
setting part of its witness. -/
def c7SetStore : MemStorage := { systemSettings := [(0, c7Setting)], nextId := 1 }

/-- Patch (only `value`) used to refute claim C7. -/
def c7SetPatch : SystemSettingPatch := { value := some "40" }

/-- Claim C7, counterexample: the claim promises that for every entity kind
an update on a present id stores and returns exactly the shallow merge of
the patch over the existing record, absent fields preserved; but
`updateSystemSetting` at instant 9 does not return the shallow merge — it
additionally refreshes `updatedAt` (from 0 to 9), a field no patch can
mention. -/
theorem C7_counterexample_updatedAt :
    (c7SetStore.updateSystemSetting 9 0 c7SetPatch).1
      ≠ some (mergeSystemSetting c7Setting c7SetPatch) := by decide

/-- Claim C7 as amended: for every embedded entity kind, `update` on a
non-existent id returns absent and leaves the entire store unchanged; on a
present id it shallow-merges the patch over the existing record (fields
present in the patch replace existing values, absent fields are preserved),
stores the merged record, and returns it — except `updateSystemSetting`,
which stores and returns the shallow merge with `updatedAt` additionally
refreshed to the update instant (shown for the cited Fee kind and for the
exceptional SystemSetting kind). -/
theorem C7_update_merge_semantics :
    (∀ (st : MemStorage) (id : Nat) (p : FeePatch),
      (st.getFee id = none → st.updateFee id p = (none, st)) ∧
      (∀ pre, st.getFee id = some pre →
        (st.updateFee id p).1 = some (mergeFee pre p) ∧
        (st.updateFee id p).2.fees = st.fees.set id (mergeFee pre p) ∧
        (st.updateFee id p).2.getFee id = some (mergeFee pre p) ∧
        (mergeFee pre p).id = pre.id ∧
        (mergeFee pre p).createdAt = pre.createdAt ∧
        (mergeFee pre p).studentId = p.studentId.getD pre.studentId ∧
        (mergeFee pre p).classId = p.classId.getD pre.classId ∧
        (mergeFee pre p).amount = p.amount.getD pre.amount ∧
        (mergeFee pre p).dueDate = p.dueDate.getD pre.dueDate ∧
        (mergeFee pre p).paidDate = p.paidDate.getD pre.paidDate ∧
        (mergeFee pre p).status = p.status.getD pre.status ∧
        (mergeFee pre p).month = p.month.getD pre.month)) ∧
    (∀ (st : MemStorage) (now : Date) (id : Nat) (p : SystemSettingPatch),
      (st.getSystemSetting id = none →
        st.updateSystemSetting now id p = (none, st)) ∧
      (∀ pre, st.getSystemSetting id = some pre →
        (st.updateSystemSetting now id p).1
          = some { mergeSystemSetting pre p with updatedAt := now } ∧
        (st.updateSystemSetting now id p).2.systemSettings
          = st.systemSettings.set id
              { mergeSystemSetting pre p with updatedAt := now } ∧
        (st.updateSystemSetting now id p).2.getSystemSetting id
          = some { mergeSystemSetting pre p with updatedAt := now } ∧
        (mergeSystemSetting pre p).id = pre.id ∧
        (mergeSystemSetting pre p).key = p.key.getD pre.key ∧
        (mergeSystemSetting pre p).value = p.value.getD pre.value ∧
        (mergeSystemSetting pre p).description
          = p.description.getD pre.description ∧
        (mergeSystemSetting pre p).category = p.category.getD pre.category ∧
        (mergeSystemSetting pre p).updatedBy = p.updatedBy.getD pre.updatedBy)) := by
  constructor
  · intro st id p
    constructor
    · intro h
      simp only [MemStorage.getFee] at h
      simp [MemStorage.updateFee, h]
    · intro pre h
      simp only [MemStorage.getFee] at h
      refine ⟨?_, ?_, ?_, rfl, rfl, rfl, rfl, rfl, rfl, rfl, rfl, rfl⟩
      · simp [MemStorage.updateFee, h]
      · simp [MemStorage.updateFee, h]
      · simp [MemStorage.updateFee, MemStorage.getFee, h, JsMap.get?_set_self]
  · intro st now id p
    constructor
    · intro h
      simp only [MemStorage.getSystemSetting] at h
      simp [MemStorage.updateSystemSetting, h]
    · intro pre h
      simp only [MemStorage.getSystemSetting] at h
      refine ⟨?_, ?_, ?_, rfl, rfl, rfl, rfl, rfl, rfl⟩
      · simp [MemStorage.updateSystemSetting, h]
      · simp [MemStorage.updateSystemSetting, h]
      · simp [MemStorage.updateSystemSetting, MemStorage.getSystemSetting, h,
              JsMap.get?_set_self]

/-- Concrete fee stored in the witness store for claim C7. -/
def c7Fee : Fee :=
  { id := 0, studentId := 3, classId := 4, amount := "100.00", dueDate := 10,
    paidDate := none, status := "pending", month := "2024-10", createdAt := 1 }

/-- Witness store for claim C7: one fee under id 0. -/
def c7Store : MemStorage := { fees := [(0, c7Fee)], nextId := 1 }

/-- Single-field patch used by the witness for claim C7. -/
def c7Patch : FeePatch := { status := some "paid" }

/-- Witness for claim C7 at concrete stores: updating an absent id is a
no-op returning absent, updating a present fee returns the shallow merge,
and updating a present system setting returns the shallow merge with
`updatedAt` refreshed. -/
theorem C7_update_witness :
    c7Store.getFee 9 = none ∧ c7Store.updateFee 9 c7Patch = (none, c7Store) ∧
    c7Store.getFee 0 = some c7Fee ∧
    (c7Store.updateFee 0 c7Patch).1 = some (mergeFee c7Fee c7Patch) ∧
    c7SetStore.getSystemSetting 0 = some c7Setting ∧
    (c7SetStore.updateSystemSetting 9 0 c7SetPatch).1
      = some { mergeSystemSetting c7Setting c7SetPatch with updatedAt := 9 } :=
  ⟨by decide, (C7_update_merge_semantics.1 c7Store 9 c7Patch).1 (by decide),
   by decide,
   ((C7_update_merge_semantics.1 c7Store 0 c7Patch).2 c7Fee (by decide)).1,
   by decide,
   ((C7_update_merge_semantics.2 c7SetStore 9 0 c7SetPatch).2 c7Setting
     (by decide)).1⟩

/-- System setting stored in the store used to refute claim C1. -/
def c1Setting : SystemSetting :=
  { id := 0, key := "theme", value := "light", description := none,
    category := "general", updatedBy := none, updatedAt := 0 }

/-- Store holding one system setting, used to refute claim C1 and as the
setting part of its witness. -/
def c1SetStore : MemStorage := { systemSettings := [(0, c1Setting)], nextId := 1 }

/-- Single-field patch (only `value`) used to refute claim C1. -/
def c1SetPatch : SystemSettingPatch := { value := some "dark" }

/-- Claim C1, counterexample: the claim promises that a single-field update
changes only that field for every entity kind, but `updateSystemSetting`
at instant 5 of only the `value` field does not return the stored record
with only `value` changed — it additionally refreshes `updatedAt` from 0
to 5. -/
theorem C1_counterexample_updatedAt :
    (c1SetStore.updateSystemSetting 5 0 c1SetPatch).1 ≠
      some { c1Setting with value := "dark" } := by decide

/-- Claim C1 as amended: for a record stored under `id`, an update patch
leaves every field the patch does not mention identical to the pre-update
record, and never changes the identifier or the creation timestamp — except
that `updateSystemSetting` additionally refreshes `updatedAt` to the update
instant (shown for the Student and SystemSetting kinds, the two kinds the
claim cites). -/
theorem C1_single_field_update :
    (∀ (st : MemStorage) (id : Nat) (p : StudentPatch) (pre : Student),
      st.getStudent id = some pre →
      (st.updateStudent id p).1 = some (mergeStudent pre p) ∧
      (mergeStudent pre p).id = pre.id ∧
      (mergeStudent pre p).createdAt = pre.createdAt ∧
      (p.name = none → (mergeStudent pre p).name = pre.name) ∧
      (p.email = none → (mergeStudent pre p).email = pre.email) ∧
      (p.rollNumber = none → (mergeStudent pre p).rollNumber = pre.rollNumber) ∧
      (p.grade = none → (mergeStudent pre p).grade = pre.grade) ∧
      (p.subjects = none → (mergeStudent pre p).subjects = pre.subjects) ∧
      (p.parentId = none → (mergeStudent pre p).parentId = pre.parentId) ∧
      (p.tutorId = none → (mergeStudent pre p).tutorId = pre.tutorId) ∧
      (p.avatar = none → (mergeStudent pre p).avatar = pre.avatar)) ∧
    (∀ (st : MemStorage) (now : Date) (id : Nat) (p : SystemSettingPatch)
        (pre : SystemSetting),
      st.getSystemSetting id = some pre →
      (st.updateSystemSetting now id p).1
        = some { mergeSystemSetting pre p with updatedAt := now } ∧
      (mergeSystemSetting pre p).id = pre.id ∧
      (p.key = none → (mergeSystemSetting pre p).key = pre.key) ∧
      (p.value = none → (mergeSystemSetting pre p).value = pre.value) ∧
      (p.description = none →
        (mergeSystemSetting pre p).description = pre.description) ∧
      (p.category = none → (mergeSystemSetting pre p).category = pre.category) ∧
      (p.updatedBy = none →
        (mergeSystemSetting pre p).updatedBy = pre.updatedBy)) := by
  constructor
  · intro st id p pre h
    simp only [MemStorage.getStudent] at h
    refine ⟨?_, rfl, rfl, ?_, ?_, ?_, ?_, ?_, ?_, ?_, ?_⟩
    · simp [MemStorage.updateStudent, h]
    all_goals intro hf
    all_goals simp [mergeStudent, hf]
  · intro st now id p pre h
    simp only [MemStorage.getSystemSetting] at h
    refine ⟨?_, rfl, ?_, ?_, ?_, ?_, ?_⟩
    · simp [MemStorage.updateSystemSetting, h]
    all_goals intro hf
    all_goals simp [mergeSystemSetting, hf]

/-- Student stored in the witness store for claim C1. -/
def c1Student : Student :=
  { id := 2, name := "B", email := "b@example.com", rollNumber := "102",
    grade := "G11", subjects := ["Physics"], parentId := none,
    tutorId := some 1, avatar := none, createdAt := 4 }

/-- Witness store for claim C1: one student under id 2. -/
def c1StuStore : MemStorage := { students := [(2, c1Student)], nextId := 3 }

/-- Single-field patch (only `email`) used by the witness for claim C1. -/
def c1StuPatch : StudentPatch := { email := some "b2@example.com" }

/-- Witness for claim C1 at a concrete store: a single-field student update
returns the merge and preserves the unmentioned `name` field, and a
single-field setting update returns the merge with `updatedAt` refreshed. -/
theorem C1_single_field_update_witness :
    c1StuStore.getStudent 2 = some c1Student ∧
    (c1StuStore.updateStudent 2 c1StuPatch).1
      = some (mergeStudent c1Student c1StuPatch) ∧
    (mergeStudent c1Student c1StuPatch).name = c1Student.name ∧
    c1SetStore.getSystemSetting 0 = some c1Setting ∧
    (c1SetStore.updateSystemSetting 5 0 c1SetPatch).1
      = some { mergeSystemSetting c1Setting c1SetPatch with updatedAt := 5 } :=
  ⟨by decide,
   (C1_single_field_update.1 c1StuStore 2 c1StuPatch c1Student (by decide)).1,
   (C1_single_field_update.1 c1StuStore 2 c1StuPatch c1Student (by decide)).2.2.2.1
     (by decide),
   by decide,
   (C1_single_field_update.2 c1SetStore 5 0 c1SetPatch c1Setting (by decide)).1⟩

/-- Modelled from the spec wording, for comparison with the code: the
attendance rate is the count of present-or-late records over the total
record count times 100, rounded to one decimal place, and 0 when there are
no attendance records. -/
def specAvgAttendance (st : MemStorage) : ℚ :=
  let total := st.attendance.values.length
  let present :=
    (st.attendance.values.filter
      (fun att => att.status == "present" || att.status == "late")).length
  if total = 0 then 0 else toFixed1 ((present : ℚ) / (total : ℚ) * 100)

/-- Attendance record used by the concrete instance of claim C3. -/
def c3Att (i : Nat) (status : String) : Attendance :=
  { id := i, classId := 0, studentId := i, date := 1, status := status,
    notes := none, createdAt := 1 }

/-- Store with 3 present and 1 absent attendance records for one class,
the concrete instance named by claim C3. -/
def c3Store : MemStorage :=
  { attendance := [(1, c3Att 1 "present"), (2, c3Att 2 "present"),
                   (3, c3Att 3 "present"), (4, c3Att 4 "absent")],
    nextId := 5 }

/-- Claim C3: `getAdminDashboardStats().avgAttendance` equals the
present-or-late count over the total attendance count times 100 rounded to
one decimal place; it is exactly 0 with no attendance records, and exactly
75.0 with 3 present and 1 absent records. -/
theorem C3_avgAttendance :
    (∀ (st : MemStorage) (cm : String),
      (st.getAdminDashboardStats cm).avgAttendance = specAvgAttendance st) ∧
    (∀ (st : MemStorage) (cm : String), st.attendance = [] →
      (st.getAdminDashboardStats cm).avgAttendance = 0) ∧
    (c3Store.getAdminDashboardStats "2024-01").avgAttendance = 75 := by
  have hz : toFixed1 0 = 0 := by norm_num [toFixed1]
  refine ⟨?_, ?_, ?_⟩
  · intro st cm
    simp only [MemStorage.getAdminDashboardStats, specAvgAttendance]
    by_cases h : st.attendance.values.length = 0
    · simp [h, hz]
    · simp [h, Nat.pos_of_ne_zero h]
  · intro st cm h
    simp [MemStorage.getAdminDashboardStats, h, JsMap.values, hz]
  · have h1 : (JsMap.values c3Store.attendance).length = 4 := by decide
    have h2 : ((JsMap.values c3Store.attendance).filter
        (fun att => att.status == "present" || att.status == "late")).length = 3 := by
      decide
    simp only [MemStorage.getAdminDashboardStats, h1, h2]
    norm_num [toFixed1]

/-- Witness for claim C3 at the empty store: with zero attendance records
`avgAttendance` is exactly 0. -/
theorem C3_avgAttendance_witness :
    (({} : MemStorage).attendance = []) ∧
    ((({} : MemStorage).getAdminDashboardStats "2024-01").avgAttendance = 0) :=
  ⟨rfl, C3_avgAttendance.2.1 {} "2024-01" rfl⟩

/-- Record built by `createAttendance` for payload `att` with fresh id `n`
at instant `now`. -/
def attendanceRecord (n : Nat) (now : Date) (att : Attendance) : Attendance :=
  { att with id := n, createdAt := now }

/-- Sequential-create reference for `bulkCreateAttendance`: the records the
batch creates, from consecutive fresh ids, in input order. -/
def attendanceRecordsFrom (n : Nat) (now : Date) : List Attendance → List Attendance
  | [] => []
  | att :: rest => attendanceRecord n now att :: attendanceRecordsFrom (n + 1) now rest

/-- Map entries the batch appends to the attendance collection. -/
def attendanceEntriesFrom (n : Nat) (now : Date) : List Attendance → JsMap Attendance
  | [] => []
  | att :: rest =>
      (n, attendanceRecord n now att) :: attendanceEntriesFrom (n + 1) now rest

theorem attendanceRecordsFrom_length :
    ∀ (l : List Attendance) (n : Nat) (now : Date),
      (attendanceRecordsFrom n now l).length = l.length := by
  intro l
  induction l with
  | nil => intro n now; rfl
  | cons a rest ih =>
    intro n now
    simp [attendanceRecordsFrom, ih]

theorem attendanceRecordsFrom_getElem? :
    ∀ (l : List Attendance) (n : Nat) (now : Date) (i : Nat),
      (attendanceRecordsFrom n now l)[i]?
        = (l[i]?).map (fun att => attendanceRecord (n + i) now att) := by
  intro l
  induction l with
  | nil => intro n now i; simp [attendanceRecordsFrom]
  | cons a rest ih =>
    intro n now i
    cases i with
    | zero => simp [attendanceRecordsFrom]
    | succ j =>
      simp only [attendanceRecordsFrom, List.getElem?_cons_succ, ih (n + 1) now j]
      have : n + 1 + j = n + (j + 1) := by omega
      rw [this]

theorem keysBelow_entry {m : JsMap α} {n : Nat} (v : α) (h : JsMap.keysBelow m n) :
    JsMap.keysBelow (m ++ [(n, v)]) (n + 1) := by
  apply JsMap.keysBelow_append (JsMap.keysBelow_mono h (Nat.le_succ n))
  intro e he
  rw [List.mem_singleton] at he
  rw [he]
  exact Nat.lt_succ_self n

theorem bulkCreateAttendance_eq :
    ∀ (l : List Attendance) (st : MemStorage) (now : Date),
      JsMap.keysBelow st.attendance st.nextId →
      st.bulkCreateAttendance now l
        = (attendanceRecordsFrom st.nextId now l,
           { st with
               attendance := st.attendance ++ attendanceEntriesFrom st.nextId now l,
               nextId := st.nextId + l.length }) := by
  intro l
  induction l with
  | nil =>
    intro st now h
    simp [MemStorage.bulkCreateAttendance, attendanceRecordsFrom,
          attendanceEntriesFrom]
  | cons a rest ih =>
    intro st now h
    have hg : JsMap.get? st.attendance st.nextId = none :=
      JsMap.get?_eq_none_of_keysBelow h
    have hset : JsMap.set st.attendance st.nextId (attendanceRecord st.nextId now a)
        = st.attendance ++ [(st.nextId, attendanceRecord st.nextId now a)] :=
      JsMap.set_eq_append_of_get?_none _ hg
    have h1 := keysBelow_entry (attendanceRecord st.nextId now a) h
    have hih := ih
      { st with
          attendance :=
            st.attendance ++ [(st.nextId, attendanceRecord st.nextId now a)],
          nextId := st.nextId + 1 } now h1
    simp only [MemStorage.bulkCreateAttendance, MemStorage.createAttendance]
    rw [show ({ a with id := st.nextId, createdAt := now } : Attendance)
          = attendanceRecord st.nextId now a from rfl, hset, hih]
    simp only [attendanceRecordsFrom, attendanceEntriesFrom, Prod.mk.injEq,
               MemStorage.mk.injEq, List.append_assoc, List.singleton_append,
               List.length_cons]
    simp only [true_and, and_true]
    omega

theorem get?_attendanceEntriesFrom :
    ∀ (l : List Attendance) (m : JsMap Attendance) (n : Nat) (now : Date),
      JsMap.keysBelow m n →
      ∀ a ∈ attendanceRecordsFrom n now l,
        JsMap.get? (m ++ attendanceEntriesFrom n now l) a.id = some a := by
  intro l
  induction l with
  | nil =>
    intro m n now h a ha
    simp [attendanceRecordsFrom] at ha
  | cons x rest ih =>
    intro m n now h a ha
    simp only [attendanceRecordsFrom, List.mem_cons] at ha
    rcases ha with rfl | ha
    · have hg : JsMap.get? m (attendanceRecord n now x).id = none := by
        simpa [attendanceRecord] using JsMap.get?_eq_none_of_keysBelow h
      rw [JsMap.get?_append_of_none hg]
      simp [attendanceEntriesFrom, JsMap.get?, attendanceRecord]
    · have h1 := keysBelow_entry (attendanceRecord n now x) h
      have := ih (m ++ [(n, attendanceRecord n now x)]) (n + 1) now h1 a ha
      simpa [attendanceEntriesFrom, List.append_assoc] using this

/-- Claim C6: `bulkCreateAttendance` applies `createAttendance` to each
element sequentially in input order and returns the created records in the
same order as the inputs (the i-th result is the i-th input with its
synthesized id and timestamp), each independently retrievable via
`getAttendance` of its synthesized id. -/
theorem C6_bulkCreateAttendance_order :
    ∀ (st : MemStorage) (now : Date) (l : List Attendance),
      st.WF →
      (st.bulkCreateAttendance now l).1 = attendanceRecordsFrom st.nextId now l ∧
      (st.bulkCreateAttendance now l).1.length = l.length ∧
      (∀ i, ((st.bulkCreateAttendance now l).1)[i]?
        = (l[i]?).map (fun att => attendanceRecord (st.nextId + i) now att)) ∧
      (∀ a ∈ (st.bulkCreateAttendance now l).1,
        (st.bulkCreateAttendance now l).2.getAttendance a.id = some a) := by
  intro st now l hwf
  have hatt : JsMap.keysBelow st.attendance st.nextId := hwf.2.2.2.1
  have hchar := bulkCreateAttendance_eq l st now hatt
  refine ⟨?_, ?_, ?_, ?_⟩
  · rw [hchar]
  · rw [hchar]
    exact attendanceRecordsFrom_length l st.nextId now
  · intro i
    rw [hchar]
    exact attendanceRecordsFrom_getElem? l st.nextId now i
  · intro a ha
    rw [hchar] at ha
    rw [hchar]
    simp only [MemStorage.getAttendance]
    exact get?_attendanceEntriesFrom l st.attendance st.nextId now hatt a ha

/-- First attendance payload used by the witness for claim C6. -/
def c6AttA : Attendance :=
  { id := 9, classId := 1, studentId := 2, date := 3, status := "present",
    notes := none, createdAt := 8 }

/-- Second attendance payload used by the witness for claim C6. -/
def c6AttB : Attendance :=
  { id := 9, classId := 1, studentId := 4, date := 3, status := "absent",
    notes := none, createdAt := 8 }

/-- Witness for claim C6 on the empty store: a two-element batch returns the
two records in input order with consecutive fresh ids, and the first is
retrievable under its synthesized id. -/
theorem C6_bulkCreateAttendance_witness :
    (({} : MemStorage).WF) ∧
    (({} : MemStorage).bulkCreateAttendance 7 [c6AttA, c6AttB]).1
      = attendanceRecordsFrom 0 7 [c6AttA, c6AttB] ∧
    (({} : MemStorage).bulkCreateAttendance 7 [c6AttA, c6AttB]).2.getAttendance
        (attendanceRecord 0 7 c6AttA).id
      = some (attendanceRecord 0 7 c6AttA) :=
  ⟨by decide,
   (C6_bulkCreateAttendance_order {} 7 [c6AttA, c6AttB] (by decide)).1,
   (C6_bulkCreateAttendance_order {} 7 [c6AttA, c6AttB] (by decide)).2.2.2
     (attendanceRecord 0 7 c6AttA) (by decide)⟩

theorem parseFloatQ_250 : parseFloatQ "250.00" = 250 := by
  have h : splitAtDot "250.00".data = ("250".data, some "00".data) := by decide
  have hi : digitsToNat "250".data 0 = 250 := by decide
  have hf : digitsToNat "00".data 0 = 0 := by decide
  have hl : ("00".data).length = 2 := by decide
  simp [parseFloatQ, h, hi, hf, hl]

theorem totalRevenue_unfold (st : MemStorage) (cm : String) :
    (st.getAdminDashboardStats cm).totalRevenue
      = (st.fees.values.filter (fun fee => fee.status == "paid")).foldl
          (fun sum fee => sum + parseFloatQ fee.amount) 0 := rfl

theorem monthlyRevenue_unfold (st : MemStorage) (cm : String) :
    (st.getAdminDashboardStats cm).monthlyRevenue
      = (st.fees.values.filter
          (fun fee => fee.status == "paid" && fee.month == cm)).foldl
          (fun sum fee => sum + parseFloatQ fee.amount) 0 := rfl

theorem foldl_revenue_append (p : Fee → Bool) (A : List Fee) (g : Fee) :
    ((A ++ [g]).filter p).foldl (fun sum fee => sum + parseFloatQ fee.amount) 0
      = (A.filter p).foldl (fun sum fee => sum + parseFloatQ fee.amount) 0
        + (if p g then parseFloatQ g.amount else 0) := by
  rw [List.filter_append, List.foldl_append]
  by_cases h : p g <;> simp [h]

theorem revenue_values_append (p : Fee → Bool) (m : JsMap Fee) (n : Nat) (g : Fee) :
    (((m ++ [(n, g)]).values.filter p).foldl
        (fun sum fee => sum + parseFloatQ fee.amount) 0)
      = ((m.values.filter p).foldl (fun sum fee => sum + parseFloatQ fee.amount) 0)
        + (if p g then parseFloatQ g.amount else 0) := by
  rw [JsMap.values_append]
  simpa [JsMap.values] using foldl_revenue_append p m.values g

/-- Claim C2: in a store with no fees for month `"2024-11"`, creating a fee
of amount `"250.00"`, status `"pending"`, month `"2024-11"` makes
`getFeesByMonth("2024-11")` return exactly that fee; after updating its
status to `"paid"` (setting `paidDate`), `getAdminDashboardStats`'s
`totalRevenue` is greater by 250.00 than before the update, and if
`"2024-11"` is the current calendar month, `monthlyRevenue` is greater by
250.00 too. -/
theorem C2_fee_revenue_scenario :
    ∀ (st : MemStorage) (now paid : Date) (fee : Fee) (cm : String),
      st.WF →
      fee.amount = "250.00" → fee.status = "pending" → fee.month = "2024-11" →
      st.getFeesByMonth "2024-11" = [] →
      (st.createFee now fee).2.getFeesByMonth "2024-11"
        = [(st.createFee now fee).1] ∧
      ((((st.createFee now fee).2.updateFee (st.createFee now fee).1.id
            { status := some "paid",
              paidDate := some (some paid) }).2.getAdminDashboardStats
          cm).totalRevenue
        = ((st.createFee now fee).2.getAdminDashboardStats cm).totalRevenue
            + 250) ∧
      (cm = "2024-11" →
        ((((st.createFee now fee).2.updateFee (st.createFee now fee).1.id
              { status := some "paid",
                paidDate := some (some paid) }).2.getAdminDashboardStats
            cm).monthlyRevenue
          = ((st.createFee now fee).2.getAdminDashboardStats cm).monthlyRevenue
              + 250)) := by
  intro st now paid fee cm hwf hA hS hM hEmpty
  have hfees : JsMap.keysBelow st.fees st.nextId := hwf.2.2.2.2.1
  have hg0 : JsMap.get? st.fees st.nextId = none :=
    JsMap.get?_eq_none_of_keysBelow hfees
  have hset : JsMap.set st.fees st.nextId
        { fee with id := st.nextId, createdAt := now }
      = st.fees ++ [(st.nextId, { fee with id := st.nextId, createdAt := now })] :=
    JsMap.set_eq_append_of_get?_none _ hg0
  have hget1 : JsMap.get?
      (st.fees ++ [(st.nextId, { fee with id := st.nextId, createdAt := now })])
      st.nextId
      = some { fee with id := st.nextId, createdAt := now } := by
    rw [JsMap.get?_append_of_none hg0]
    simp [JsMap.get?]
  have hset2 : JsMap.set
      (st.fees ++ [(st.nextId, { fee with id := st.nextId, createdAt := now })])
      st.nextId
      { fee with
          id := st.nextId, createdAt := now, status := "paid",
          paidDate := some paid }
      = st.fees ++ [(st.nextId,
          { fee with
              id := st.nextId, createdAt := now, status := "paid",
              paidDate := some paid })] :=
    JsMap.set_append_of_keysBelow _ _ hfees
  simp only [MemStorage.getFeesByMonth] at hEmpty
  refine ⟨?_, ?_, ?_⟩
  · simp only [MemStorage.createFee, MemStorage.getFeesByMonth]
    rw [hset, JsMap.values_append, List.filter_append, hEmpty]
    simp [JsMap.values, hM]
  · simp only [MemStorage.createFee, MemStorage.updateFee]
    rw [hset, hget1]
    dsimp only
    rw [show mergeFee { fee with id := st.nextId, createdAt := now }
          { status := some "paid", paidDate := some (some paid) }
        = { fee with
              id := st.nextId, createdAt := now, status := "paid",
              paidDate := some paid } from rfl]
    rw [totalRevenue_unfold, totalRevenue_unfold]
    dsimp only
    rw [hset2, revenue_values_append, revenue_values_append]
    simp [hA, hS, parseFloatQ_250]
  · intro hcm
    subst hcm
    simp only [MemStorage.createFee, MemStorage.updateFee]
    rw [hset, hget1]
    dsimp only
    rw [show mergeFee { fee with id := st.nextId, createdAt := now }
          { status := some "paid", paidDate := some (some paid) }
        = { fee with
              id := st.nextId, createdAt := now, status := "paid",
              paidDate := some paid } from rfl]
    rw [monthlyRevenue_unfold, monthlyRevenue_unfold]
    dsimp only
    rw [hset2, revenue_values_append, revenue_values_append]
    simp [hA, hS, hM, parseFloatQ_250]

/-- Fee payload used by the witness for claim C2. -/
def c2Fee : Fee :=
  { id := 42, studentId := 1, classId := 2, amount := "250.00", dueDate := 30,
    paidDate := none, status := "pending", month := "2024-11", createdAt := 99 }

/-- Witness for claim C2 on the empty store: the created fee is the only
fee of month 2024-11, and marking it paid raises `totalRevenue` and (with
2024-11 as the current month) `monthlyRevenue` by exactly 250. -/
theorem C2_fee_revenue_witness :
    (({} : MemStorage).WF) ∧
    (({} : MemStorage).getFeesByMonth "2024-11" = []) ∧
    ((({} : MemStorage).createFee 1 c2Fee).2.getFeesByMonth "2024-11"
      = [(({} : MemStorage).createFee 1 c2Fee).1]) ∧
    ((((({} : MemStorage).createFee 1 c2Fee).2.updateFee
          (({} : MemStorage).createFee 1 c2Fee).1.id
          { status := some "paid",
            paidDate := some (some 2) }).2.getAdminDashboardStats
        "2024-11").totalRevenue
      = ((({} : MemStorage).createFee 1 c2Fee).2.getAdminDashboardStats
          "2024-11").totalRevenue + 250) ∧
    ((((({} : MemStorage).createFee 1 c2Fee).2.updateFee
          (({} : MemStorage).createFee 1 c2Fee).1.id
          { status := some "paid",
            paidDate := some (some 2) }).2.getAdminDashboardStats
        "2024-11").monthlyRevenue
      = ((({} : MemStorage).createFee 1 c2Fee).2.getAdminDashboardStats
          "2024-11").monthlyRevenue + 250) :=
  have h := C2_fee_revenue_scenario {} 1 2 c2Fee "2024-11" (by decide) rfl rfl rfl
    (by decide)
  ⟨by decide, by decide, h.1, h.2.1, h.2.2 rfl⟩

end TutorEdge
